import Mathlib

/-!
Verification of the ExternalHound relationship subsystem.

Shallow embedding of the relationship subsystem of the ExternalHound
backend: the relationship type registry and request schemas
(app/schemas/relationships/relationship.py), the relational repository
(app/repositories/relationships/relationship.py), the graph mirror
(app/db/neo4j.py, app/services/relationships/neo4j_sync.py) and the
orchestration service (app/services/relationships/relationship.py).

Python dictionaries are embedded as insertion-ordered association lists,
UUIDs as naturals drawn from a fresh counter, and database timestamps as
a logical clock.  Exceptions are embedded as an error sum returned next
to the post-state: mutations performed before a raise stay visible in
the returned state (as they do in an uncommitted SQLAlchemy session) and
the transaction boundary of the reachability relation discards the state
of a failed operation, which models the rollback performed by the caller.
-/

namespace ExternalHound

/-- Asset node types (class NodeType in app/schemas/relationships/relationship.py). -/
inductive NodeType
  | ORGANIZATION
  | DOMAIN
  | IP
  | NETBLOCK
  | SERVICE
  | CERTIFICATE
  | CLIENT_APPLICATION
  | CREDENTIAL
deriving DecidableEq, Repr

/-- String value of a node type member. -/
def NodeType.value : NodeType → String
  | .ORGANIZATION => "Organization"
  | .DOMAIN => "Domain"
  | .IP => "IP"
  | .NETBLOCK => "Netblock"
  | .SERVICE => "Service"
  | .CERTIFICATE => "Certificate"
  | .CLIENT_APPLICATION => "ClientApplication"
  | .CREDENTIAL => "Credential"

/-- Relationship types (class RelationshipType), 13 members in four groups. -/
inductive RelationshipType
  | SUBSIDIARY
  | OWNS_NETBLOCK
  | OWNS_ASSET
  | OWNS_DOMAIN
  | CONTAINS
  | SUBDOMAIN
  | RESOLVES_TO
  | HISTORY_RESOLVES_TO
  | ISSUED_TO
  | HOSTS_SERVICE
  | ROUTES_TO
  | UPSTREAM
  | COMMUNICATES
deriving DecidableEq, Repr

/-- String value of a relationship type member. -/
def RelationshipType.value : RelationshipType → String
  | .SUBSIDIARY => "SUBSIDIARY"
  | .OWNS_NETBLOCK => "OWNS_NETBLOCK"
  | .OWNS_ASSET => "OWNS_ASSET"
  | .OWNS_DOMAIN => "OWNS_DOMAIN"
  | .CONTAINS => "CONTAINS"
  | .SUBDOMAIN => "SUBDOMAIN"
  | .RESOLVES_TO => "RESOLVES_TO"
  | .HISTORY_RESOLVES_TO => "HISTORY_RESOLVES_TO"
  | .ISSUED_TO => "ISSUED_TO"
  | .HOSTS_SERVICE => "HOSTS_SERVICE"
  | .ROUTES_TO => "ROUTES_TO"
  | .UPSTREAM => "UPSTREAM"
  | .COMMUNICATES => "COMMUNICATES"

/-- The RELATIONSHIP_RULES dict: relationship type to required
(source_type, target_type) pair, as an association list in source order. -/
def RELATIONSHIP_RULES : List (RelationshipType × (NodeType × NodeType)) :=
  [ (.SUBSIDIARY, (.ORGANIZATION, .ORGANIZATION))
  , (.OWNS_NETBLOCK, (.ORGANIZATION, .NETBLOCK))
  , (.OWNS_ASSET, (.ORGANIZATION, .IP))
  , (.OWNS_DOMAIN, (.ORGANIZATION, .DOMAIN))
  , (.CONTAINS, (.NETBLOCK, .IP))
  , (.SUBDOMAIN, (.DOMAIN, .DOMAIN))
  , (.RESOLVES_TO, (.DOMAIN, .IP))
  , (.HISTORY_RESOLVES_TO, (.IP, .DOMAIN))
  , (.ISSUED_TO, (.CERTIFICATE, .DOMAIN))
  , (.HOSTS_SERVICE, (.IP, .SERVICE))
  , (.ROUTES_TO, (.DOMAIN, .SERVICE))
  , (.UPSTREAM, (.SERVICE, .SERVICE))
  , (.COMMUNICATES, (.CLIENT_APPLICATION, .SERVICE))
  ]

/-- Lookup in the rules dict, the dict.get of the validator. -/
def rulesGet (rt : RelationshipType) : Option (NodeType × NodeType) :=
  RELATIONSHIP_RULES.lookup rt

/-- Scalar / JSON-like property values stored in the properties dict. -/
inductive PropValue
  | str (s : String)
  | num (n : Int)
  | boolean (b : Bool)
  | null
deriving DecidableEq, Repr

/-- A Python dict of properties: insertion-ordered association list. -/
abbrev Props := List (String × PropValue)

/-- First value bound to a key, dict subscript / dict.get. -/
def propsGet (p : Props) (k : String) : Option PropValue :=
  p.lookup k

/-- Key membership test on a properties dict. -/
def propsHasKey (p : Props) (k : String) : Bool :=
  p.any (fun kv => kv.1 == k)

/-- Keys of a Python dict are unique. -/
def nodupKeys (p : Props) : Prop :=
  (p.map Prod.fst).Nodup

instance (p : Props) : Decidable (nodupKeys p) := by
  unfold nodupKeys; infer_instance

/-- Right-biased dict merge: the Python expression that spreads base then
updates, so update entries override same-named base keys, other base keys
keep their values, and update-only keys are appended. -/
def dictMerge (base updates : Props) : Props :=
  (base.map (fun kv => (kv.1, (propsGet updates kv.1).getD kv.2)))
    ++ updates.filter (fun kv => !(propsHasKey base kv.1))

/-- Application errors (app/core/exceptions.py) together with the
pydantic ValueError raised by schema validators and the exceptions
raised by the Neo4j driver, which the service layer only re-raises.
Driver-specific detail payloads are not modelled. -/
inductive AppError
  | ConflictError (resource_type field value : String)
  | NotFoundError (resource_type resource_id : String)
  | ValidationError (message : String)
  | StoreError (message : String)
  | HTTPException (status_code : Nat) (detail : String)
deriving DecidableEq, Repr

/-- Raw payload of the create-relationship request, before pydantic
validation.  Enum-typed fields arrive already coerced; string and dict
fields are validated below. -/
structure RelationshipCreateInput where
  source_external_id : String
  target_external_id : String
  source_type : NodeType
  target_type : NodeType
  relation_type : RelationshipType
  edge_key : String := "default"
  properties : Props := []
  created_by : Option String := none
deriving DecidableEq, Repr

/-- A validated create payload (class RelationshipCreate): same fields,
produced only by RelationshipCreate.validate below. -/
structure RelationshipCreate where
  source_external_id : String
  target_external_id : String
  source_type : NodeType
  target_type : NodeType
  relation_type : RelationshipType
  edge_key : String
  properties : Props
  created_by : Option String
deriving DecidableEq, Repr

/-- Field constraints of RelationshipCreate: min_length and max_length
bounds of the pydantic Field declarations. -/
def RelationshipCreate.fieldsOk (i : RelationshipCreateInput) : Bool :=
  1 ≤ i.source_external_id.length && i.source_external_id.length ≤ 255
    && 1 ≤ i.target_external_id.length && i.target_external_id.length ≤ 255
    && i.edge_key.length ≤ 255
    && (match i.created_by with
        | none => true
        | some c => c.length ≤ 100)

/-- The model validator validate_relationship: the (source_type,
target_type) pair must equal the registry pair of relation_type, else a
ValueError naming the expected pair is raised.  Field validation runs
first, the mode-after model validator second, as in pydantic. -/
def RelationshipCreate.validate (i : RelationshipCreateInput) :
    Except AppError RelationshipCreate :=
  if RelationshipCreate.fieldsOk i then
    match rulesGet i.relation_type with
    | some expected =>
      if (i.source_type, i.target_type) ≠ expected then
        .error (.ValidationError
          ("Invalid source/target types for " ++ i.relation_type.value
            ++ ": expected " ++ expected.1.value ++ " -> " ++ expected.2.value
            ++ ", got " ++ i.source_type.value ++ " -> " ++ i.target_type.value))
      else
        .ok ⟨i.source_external_id, i.target_external_id, i.source_type,
          i.target_type, i.relation_type, i.edge_key, i.properties, i.created_by⟩
    | none =>
      .ok ⟨i.source_external_id, i.target_external_id, i.source_type,
        i.target_type, i.relation_type, i.edge_key, i.properties, i.created_by⟩
  else
    .error (.ValidationError "field constraint violated")

/-- Update payload (class RelationshipUpdate): only properties, optional. -/
structure RelationshipUpdate where
  properties : Option Props
deriving DecidableEq, Repr

/-- A row of the assets_relationship table (class Relationship in
app/models/postgres/relationship.py).  The UUID primary key is embedded
as a natural drawn from a fresh counter and timestamps as a logical
clock. -/
structure Relationship where
  id : Nat
  source_external_id : String
  source_type : String
  target_external_id : String
  target_type : String
  relation_type : String
  edge_key : String
  properties : Props
  is_deleted : Bool
  deleted_at : Option Nat
  created_at : Nat
  updated_at : Nat
  created_by : Option String
deriving DecidableEq, Repr

/-- The natural key columns of the unique constraint
uq_assets_relationship_key. -/
def natKey (r : Relationship) :
    String × String × String × String × String × String :=
  (r.source_external_id, r.source_type, r.target_external_id,
    r.target_type, r.relation_type, r.edge_key)

/-- State of the relational store: the table rows in storage order, the
fresh-id counter and the server clock used for now(). -/
structure PGState where
  rows : List Relationship
  nextId : Nat
  clock : Nat
deriving DecidableEq, Repr

/-- The empty relational store. -/
def PGState.empty : PGState := ⟨[], 0, 0⟩

namespace RelationshipRepository

/-- Values passed as kwargs to RelationshipRepository.create. -/
structure CreateKwargs where
  source_external_id : String
  source_type : String
  target_external_id : String
  target_type : String
  relation_type : String
  edge_key : String
  properties : Props
  created_by : Option String
deriving DecidableEq, Repr

/-- Natural key of a kwargs bundle. -/
def CreateKwargs.key (k : CreateKwargs) :
    String × String × String × String × String × String :=
  (k.source_external_id, k.source_type, k.target_external_id,
    k.target_type, k.relation_type, k.edge_key)

/-- RelationshipRepository.create: inserts a new row; the unique
constraint uq_assets_relationship_key covers every row (deleted or not),
and its violation surfaces as an IntegrityError which the repository
converts into a ConflictError. -/
def create (k : CreateKwargs) (st : PGState) :
    Except AppError Relationship × PGState :=
  if st.rows.any (fun r => natKey r = k.key) then
    (.error (.ConflictError "Relationship" "unique_key" "relationship"), st)
  else
    let rel : Relationship :=
      { id := st.nextId
      , source_external_id := k.source_external_id
      , source_type := k.source_type
      , target_external_id := k.target_external_id
      , target_type := k.target_type
      , relation_type := k.relation_type
      , edge_key := k.edge_key
      , properties := k.properties
      , is_deleted := false
      , deleted_at := none
      , created_at := st.clock
      , updated_at := st.clock
      , created_by := k.created_by }
    (.ok rel, ⟨st.rows ++ [rel], st.nextId + 1, st.clock + 1⟩)

/-- RelationshipRepository.get_by_id: first row with the id, excluding
soft-deleted rows unless include_deleted. -/
def get_by_id (id : Nat) (include_deleted : Bool) (st : PGState) :
    Option Relationship :=
  st.rows.find? (fun r => r.id = id && (include_deleted || r.is_deleted = false))

/-- RelationshipRepository.get_by_key: first row with the natural key,
excluding soft-deleted rows unless include_deleted. -/
def get_by_key (key : String × String × String × String × String × String)
    (include_deleted : Bool) (st : PGState) : Option Relationship :=
  st.rows.find? (fun r => natKey r = key && (include_deleted || r.is_deleted = false))

/-- RelationshipRepository.update_properties: fetch the active row by id
(NotFound if absent), replace its properties wholesale and refresh
updated_at. -/
def update_properties (id : Nat) (properties : Props) (st : PGState) :
    Except AppError Relationship × PGState :=
  match get_by_id id false st with
  | none => (.error (.NotFoundError "Relationship" (toString id)), st)
  | some r =>
    let r' := { r with properties := properties, updated_at := st.clock }
    (.ok r',
      ⟨st.rows.map (fun q => if q.id = id && q.is_deleted = false then r' else q),
        st.nextId, st.clock + 1⟩)

/-- RelationshipRepository.hard_delete: DELETE by id, NotFound when the
statement touches no row. -/
def hard_delete (id : Nat) (st : PGState) : Except AppError Bool × PGState :=
  if st.rows.any (fun r => r.id = id) then
    (.ok true, ⟨st.rows.filter (fun r => r.id ≠ id), st.nextId, st.clock⟩)
  else
    (.error (.NotFoundError "Relationship" (toString id)), st)

/-- RelationshipRepository.soft_delete delegates to hard_delete in the
source (the repository applies a hard-delete policy). -/
def soft_delete (id : Nat) (st : PGState) : Except AppError Bool × PGState :=
  hard_delete id st

/-- Whether a row touches the given node as source or as target. -/
def touchesNode (external_id node_type : String) (r : Relationship) : Bool :=
  (r.source_external_id = external_id && r.source_type = node_type)
    || (r.target_external_id = external_id && r.target_type = node_type)

/-- RelationshipRepository.hard_delete_by_node: DELETE every row where
the node appears as source or target, returning the rowcount. -/
def hard_delete_by_node (external_id node_type : String) (st : PGState) :
    Nat × PGState :=
  ((st.rows.filter (touchesNode external_id node_type)).length,
    ⟨st.rows.filter (fun r => !(touchesNode external_id node_type r)),
      st.nextId, st.clock⟩)

end RelationshipRepository

/-- A node of the Neo4j store, identified by its label and its id
property, exactly the pattern used by MERGE in Neo4jManager. -/
structure GraphNodeRec where
  label : String
  node_id : String
deriving DecidableEq, Repr

/-- An edge of the Neo4j store: endpoint nodes, relationship type, the
id property set by merge_relationship, and remaining properties. -/
structure GraphEdge where
  source : GraphNodeRec
  target : GraphNodeRec
  rel_type : String
  rel_id : String
  properties : Props
deriving DecidableEq, Repr

/-- State of the graph store. -/
structure Neo4jState where
  nodes : List GraphNodeRec
  edges : List GraphEdge
deriving DecidableEq, Repr

/-- The empty graph store. -/
def Neo4jState.empty : Neo4jState := ⟨[], []⟩

namespace Neo4jManager

/-- MERGE (n:label \x7bid: $node_id\x7d): create the node when absent. -/
def mergeNode (label node_id : String) (g : Neo4jState) : Neo4jState :=
  if g.nodes.any (fun n => n.label = label && n.node_id = node_id) then g
  else ⟨g.nodes ++ [⟨label, node_id⟩], g.edges⟩

/-- Whether an edge matches the MERGE pattern of merge_relationship:
same endpoints, same relationship type, same id property. -/
def edgeMatches (source target : GraphNodeRec) (rel_type rel_id : String)
    (e : GraphEdge) : Bool :=
  e.source = source && e.target = target
    && e.rel_type = rel_type && e.rel_id = rel_id

/-- Neo4jManager.merge_relationship: MERGE both endpoint nodes, MERGE
the edge on (endpoints, type, id) and apply SET r += $properties, the
right-biased property merge. -/
def merge_relationship (source_label source_id rel_type target_label
    target_id rel_id : String) (properties : Props) (g : Neo4jState) :
    Neo4jState :=
  let g := mergeNode source_label source_id g
  let g := mergeNode target_label target_id g
  let a : GraphNodeRec := ⟨source_label, source_id⟩
  let b : GraphNodeRec := ⟨target_label, target_id⟩
  if g.edges.any (edgeMatches a b rel_type rel_id) then
    ⟨g.nodes, g.edges.map (fun e =>
      if edgeMatches a b rel_type rel_id e then
        { e with properties := dictMerge e.properties properties }
      else e)⟩
  else
    ⟨g.nodes, g.edges ++ [⟨a, b, rel_type, rel_id, properties⟩]⟩

/-- Neo4jManager.delete_relationship: MATCH ()-[r \x7bid: $rel_id\x7d]-()
DELETE r, removing every edge whose id property equals rel_id; deleting
an absent edge is not an error. -/
def delete_relationship (rel_id : String) (g : Neo4jState) : Neo4jState :=
  ⟨g.nodes, g.edges.filter (fun e => e.rel_id ≠ rel_id)⟩

/-- Neo4jManager.delete_node_relationships: remove every edge touching
the node with the given label and id. -/
def delete_node_relationships (label node_id : String) (g : Neo4jState) :
    Neo4jState :=
  let n : GraphNodeRec := ⟨label, node_id⟩
  ⟨g.nodes, g.edges.filter (fun e => !(e.source = n || e.target = n))⟩

end Neo4jManager

namespace RelationshipGraphService

/-- RelationshipGraphService._build_relationship_properties: the stored
properties plus denormalized bookkeeping fields; created_by is added
only when truthy.  Timestamps are rendered as strings, as isoformat
does. -/
def build_relationship_properties (rel : Relationship) : Props :=
  let properties := dictMerge rel.properties
    [ ("edge_key", .str rel.edge_key)
    , ("source_external_id", .str rel.source_external_id)
    , ("source_type", .str rel.source_type)
    , ("target_external_id", .str rel.target_external_id)
    , ("target_type", .str rel.target_type)
    , ("created_at", .str (toString rel.created_at))
    , ("updated_at", .str (toString rel.updated_at)) ]
  match rel.created_by with
  | some c => if c ≠ "" then dictMerge properties [("created_by", .str c)] else properties
  | none => properties

/-- The pure graph transition of upsert_relationship. -/
def upsertGraph (rel : Relationship) (g : Neo4jState) : Neo4jState :=
  Neo4jManager.merge_relationship rel.source_type rel.source_external_id
    rel.relation_type rel.target_type rel.target_external_id
    (toString rel.id) (build_relationship_properties rel) g

/-- RelationshipGraphService.upsert_relationship.  The flag graphFails
embeds the graph store as an independent network collaborator that may
raise on any call; the except branch of the source logs and re-raises,
so a failure surfaces unchanged as an error. -/
def upsert_relationship (graphFails : Bool) (rel : Relationship)
    (g : Neo4jState) : Except AppError Neo4jState :=
  if graphFails then .error (.StoreError "neo4j failure") else .ok (upsertGraph rel g)

/-- RelationshipGraphService.delete_relationship under the same failure
embedding. -/
def delete_relationship (graphFails : Bool) (rel_id : String)
    (g : Neo4jState) : Except AppError Neo4jState :=
  if graphFails then .error (.StoreError "neo4j failure")
  else .ok (Neo4jManager.delete_relationship rel_id g)

/-- RelationshipGraphService.delete_node_relationships under the same
failure embedding. -/
def delete_node_relationships (graphFails : Bool) (node_type external_id : String)
    (g : Neo4jState) : Except AppError Neo4jState :=
  if graphFails then .error (.StoreError "neo4j failure")
  else .ok (Neo4jManager.delete_node_relationships node_type external_id g)

end RelationshipGraphService

/-- The two stores seen by RelationshipService. -/
structure World where
  pg : PGState
  graph : Neo4jState
deriving DecidableEq, Repr

/-- Both stores empty. -/
def World.empty : World := ⟨PGState.empty, Neo4jState.empty⟩

namespace RelationshipService

/-- RelationshipService._merge_properties: right-biased dict merge of
updates over base; a missing updates dict returns base unchanged. -/
def merge_properties (base : Props) (updates : Option Props) : Props :=
  match updates with
  | none => base
  | some u => dictMerge base u

/-- RelationshipService.create_relationship: look up the active row with
the natural key, raise ConflictError if present, insert the new row,
then mirror it to Neo4j, re-raising any mirror failure after the
relational write. -/
def create_relationship (graphFails : Bool) (data : RelationshipCreate)
    (w : World) : Except AppError Relationship × World :=
  let key := (data.source_external_id, data.source_type.value,
    data.target_external_id, data.target_type.value,
    data.relation_type.value, data.edge_key)
  match RelationshipRepository.get_by_key key false w.pg with
  | some _ =>
    (.error (.ConflictError "Relationship" "unique_key"
      (data.source_external_id ++ "->" ++ data.target_external_id
        ++ ":" ++ data.relation_type.value)), w)
  | none =>
    match RelationshipRepository.create
      ⟨data.source_external_id, data.source_type.value,
        data.target_external_id, data.target_type.value,
        data.relation_type.value, data.edge_key,
        data.properties, data.created_by⟩ w.pg with
    | (.error e, pg') => (.error e, ⟨pg', w.graph⟩)
    | (.ok rel, pg') =>
      match RelationshipGraphService.upsert_relationship graphFails rel w.graph with
      | .error e => (.error e, ⟨pg', w.graph⟩)
      | .ok g' => (.ok rel, ⟨pg', g'⟩)

/-- The create endpoint: pydantic validation of the request body happens
before the service runs, so a validation failure leaves both stores
untouched. -/
def create_endpoint (graphFails : Bool) (i : RelationshipCreateInput)
    (w : World) : Except AppError Relationship × World :=
  match RelationshipCreate.validate i with
  | .error e => (.error e, w)
  | .ok data => create_relationship graphFails data w

/-- RelationshipService.update_relationship: fetch (NotFound if absent),
return unchanged when no properties were supplied, otherwise merge,
persist and mirror, re-raising any mirror failure. -/
def update_relationship (graphFails : Bool) (id : Nat)
    (data : RelationshipUpdate) (w : World) :
    Except AppError Relationship × World :=
  match RelationshipRepository.get_by_id id false w.pg with
  | none => (.error (.NotFoundError "Relationship" (toString id)), w)
  | some rel =>
    match data.properties with
    | none => (.ok rel, w)
    | some _ =>
      let merged := merge_properties rel.properties data.properties
      match RelationshipRepository.update_properties id merged w.pg with
      | (.error e, pg') => (.error e, ⟨pg', w.graph⟩)
      | (.ok updated, pg') =>
        match RelationshipGraphService.upsert_relationship graphFails updated w.graph with
        | .error e => (.error e, ⟨pg', w.graph⟩)
        | .ok g' => (.ok updated, ⟨pg', g'⟩)

/-- RelationshipService.delete_relationship: hard-delete the row, then
delete the graph edge, re-raising any mirror failure. -/
def delete_relationship (graphFails : Bool) (id : Nat) (w : World) :
    Except AppError Bool × World :=
  match RelationshipRepository.hard_delete id w.pg with
  | (.error e, pg') => (.error e, ⟨pg', w.graph⟩)
  | (.ok _, pg') =>
    match RelationshipGraphService.delete_relationship graphFails (toString id) w.graph with
    | .error e => (.error e, ⟨pg', w.graph⟩)
    | .ok g' => (.ok true, ⟨pg', g'⟩)

/-- RelationshipService.delete_relationships_for_node: bulk relational
hard delete, then bulk graph delete, re-raising any mirror failure;
returns the relational rowcount. -/
def delete_relationships_for_node (graphFails : Bool)
    (external_id : String) (node_type : NodeType) (w : World) :
    Except AppError Nat × World :=
  let (deleted_count, pg') :=
    RelationshipRepository.hard_delete_by_node external_id node_type.value w.pg
  match RelationshipGraphService.delete_node_relationships graphFails
    node_type.value external_id w.graph with
  | .error e => (.error e, ⟨pg', w.graph⟩)
  | .ok g' => (.ok deleted_count, ⟨pg', g'⟩)

end RelationshipService

/-- Path traversal direction (class PathDirection). -/
inductive PathDirection
  | OUT
  | IN
  | BOTH
deriving DecidableEq, Repr

/-- Raw payload of the path-query request, before pydantic validation;
a none field was omitted and takes the declared default. -/
structure RelationshipPathQueryInput where
  source_external_id : String
  target_external_id : String
  source_type : Option NodeType := none
  target_type : Option NodeType := none
  relation_types : Option (List RelationshipType) := none
  direction : Option PathDirection := none
  min_depth : Option Int := none
  max_depth : Option Int := none
  limit : Option Int := none
deriving DecidableEq, Repr

/-- A validated path query (class RelationshipPathQuery), produced only
by RelationshipPathQuery.validate below. -/
structure RelationshipPathQuery where
  source_external_id : String
  target_external_id : String
  source_type : Option NodeType
  target_type : Option NodeType
  relation_types : Option (List RelationshipType)
  direction : PathDirection
  min_depth : Int
  max_depth : Int
  limit : Int
deriving DecidableEq, Repr

/-- Pydantic validation of RelationshipPathQuery: field defaults
(direction BOTH, min_depth 1, max_depth 4, limit 20), the Field bounds
(id lengths 1..255, min_depth ge 1, max_depth ge 1, limit ge 1 le 100)
and then the mode-after model validator requiring max_depth ge
min_depth. -/
def RelationshipPathQuery.validate (i : RelationshipPathQueryInput) :
    Except AppError RelationshipPathQuery :=
  let direction := i.direction.getD .BOTH
  let min_depth := i.min_depth.getD 1
  let max_depth := i.max_depth.getD 4
  let limit := i.limit.getD 20
  if ¬(1 ≤ i.source_external_id.length ∧ i.source_external_id.length ≤ 255) then
    .error (.ValidationError "source_external_id length out of range")
  else if ¬(1 ≤ i.target_external_id.length ∧ i.target_external_id.length ≤ 255) then
    .error (.ValidationError "target_external_id length out of range")
  else if min_depth < 1 then
    .error (.ValidationError "min_depth must be greater than or equal to 1")
  else if max_depth < 1 then
    .error (.ValidationError "max_depth must be greater than or equal to 1")
  else if limit < 1 then
    .error (.ValidationError "limit must be greater than or equal to 1")
  else if 100 < limit then
    .error (.ValidationError "limit must be less than or equal to 100")
  else if max_depth < min_depth then
    .error (.ValidationError "max_depth must be >= min_depth")
  else
    .ok ⟨i.source_external_id, i.target_external_id, i.source_type,
      i.target_type, i.relation_types, direction, min_depth, max_depth, limit⟩

/-- The Cypher parameter map passed next to the query text. -/
structure PathParams where
  source_id : String
  target_id : String
  limit : Int
deriving DecidableEq, Repr

namespace RelationshipGraphService

/-- The relationship-type filter fragment: joined with a bar and
prefixed with a colon when a non-empty list of types was supplied,
empty otherwise (the Python truthiness test on the list). -/
def relTypePattern (q : RelationshipPathQuery) : String :=
  match q.relation_types with
  | some ts =>
    if ts.isEmpty then ""
    else ":" ++ String.intercalate "|" (ts.map RelationshipType.value)
  | none => ""

/-- The inclusive depth-range fragment min..max. -/
def depthPattern (q : RelationshipPathQuery) : String :=
  toString q.min_depth ++ ".." ++ toString q.max_depth

/-- The direction-dependent variable-length relationship pattern with
the type filter embedded in it. -/
def relPattern (q : RelationshipPathQuery) : String :=
  match q.direction with
  | .OUT => "-[rels" ++ relTypePattern q ++ "*" ++ depthPattern q ++ "]->"
  | .IN => "<-[rels" ++ relTypePattern q ++ "*" ++ depthPattern q ++ "]-"
  | .BOTH => "-[rels" ++ relTypePattern q ++ "*" ++ depthPattern q ++ "]-"

/-- RelationshipGraphService._build_path_query: the single Cypher
traversal statement and its parameters.  Literal braces of the source
f-string are escaped. -/
def build_path_query (q : RelationshipPathQuery) : String × PathParams :=
  let source_label :=
    match q.source_type with
    | some t => ":" ++ t.value
    | none => ""
  let target_label :=
    match q.target_type with
    | some t => ":" ++ t.value
    | none => ""
  let cypher :=
    "\n        MATCH p = (s" ++ source_label
      ++ " \x7bid: $source_id\x7d)" ++ relPattern q
      ++ "(t" ++ target_label ++ " \x7bid: $target_id\x7d)\n"
      ++ "        RETURN\n"
      ++ "            [n IN nodes(p) | \x7bid: n.id, labels: labels(n), properties: properties(n)\x7d] AS nodes,\n"
      ++ "            [r IN relationships(p) | \x7bid: r.id, type: type(r), properties: properties(r)\x7d] AS relationships\n"
      ++ "        LIMIT $limit\n        "
  (cypher, ⟨q.source_external_id, q.target_external_id, q.limit⟩)

/-- The trace of execute_query invocations made by find_paths: the
source awaits the Neo4j manager exactly once, with the built statement
and parameters. -/
def find_paths_calls (q : RelationshipPathQuery) : List (String × PathParams) :=
  [build_path_query q]

/-- The execute_query trace of the find-paths endpoint: pydantic
validation runs before the service, so an invalid request reaches the
store with no query at all. -/
def find_paths_endpoint_calls (i : RelationshipPathQueryInput) :
    List (String × PathParams) :=
  match RelationshipPathQuery.validate i with
  | .error _ => []
  | .ok q => find_paths_calls q

end RelationshipGraphService

/-- Filter kwargs of the relationship list and paginate queries. -/
structure Filters where
  source_external_id : Option String := none
  source_type : Option String := none
  target_external_id : Option String := none
  target_type : Option String := none
  relation_type : Option String := none
  edge_key : Option String := none
deriving DecidableEq, Repr

/-- Python truthiness of an optional string filter value: present and
non-empty. -/
def truthy : Option String → Bool
  | none => false
  | some s => !(s == "")

/-- Whether a row passes one optional equality filter. -/
def passes (v : Option String) (field : String) : Bool :=
  match v with
  | none => true
  | some s => if s == "" then true else field == s

/-- RelationshipRepository._apply_filters: conjunction of the truthy
filters. -/
def applyFilters (f : Filters) (rows : List Relationship) : List Relationship :=
  rows.filter (fun r =>
    passes f.source_external_id r.source_external_id
      && passes f.source_type r.source_type
      && passes f.target_external_id r.target_external_id
      && passes f.target_type r.target_type
      && passes f.relation_type r.relation_type
      && passes f.edge_key r.edge_key)

/-- The ORDER BY key comparison: created_at ascending, then id
ascending. -/
def relKeyLE (a b : Relationship) : Bool :=
  a.created_at < b.created_at
    || (a.created_at = b.created_at && a.id ≤ b.id)

/-- The rows an unlimited filtered SELECT with the stable ORDER BY
returns. -/
def sortedRows (include_deleted : Bool) (f : Filters) (st : PGState) :
    List Relationship :=
  let rows := if include_deleted then st.rows
    else st.rows.filter (fun r => r.is_deleted = false)
  (applyFilters f rows).mergeSort relKeyLE

namespace RelationshipRepository

/-- RelationshipRepository.list_all: filter, stable ORDER BY
(created_at asc, id asc), then OFFSET skip LIMIT limit. -/
def list_all (skip limit : Nat) (include_deleted : Bool) (f : Filters)
    (st : PGState) : List Relationship :=
  ((sortedRows include_deleted f st).drop skip).take limit

end RelationshipRepository

/-- A page of results (app/schemas/common.py Page). -/
structure Page where
  items : List Relationship
  total : Nat
  page : Nat
  page_size : Nat
  total_pages : Nat
deriving DecidableEq, Repr

namespace RelationshipRepository

/-- RelationshipRepository.paginate via app/core/pagination.paginate:
validate page and page_size, count the filtered rows, then apply the
stable ORDER BY and the OFFSET/LIMIT window. -/
def paginate (page page_size : Nat) (include_deleted : Bool) (f : Filters)
    (st : PGState) : Except AppError Page :=
  if page < 1 then
    .error (.HTTPException 422 "Page number must be >= 1")
  else if page_size < 1 then
    .error (.HTTPException 422 "Page size must be >= 1")
  else
    let sorted := sortedRows include_deleted f st
    let total := sorted.length
    let total_pages := if 0 < total then (total + page_size - 1) / page_size else 0
    .ok ⟨(sorted.drop ((page - 1) * page_size)).take page_size,
      total, page, page_size, total_pages⟩

end RelationshipRepository

/-- Worlds reachable through successful service operations from empty
stores.  A failed operation raises to the caller, whose transaction
rollback restores the previous state, so failures add no new worlds. -/
inductive Reachable : World → Prop
  | init : Reachable World.empty
  | createOk (gf : Bool) (data : RelationshipCreate) (w w' : World)
      (rel : Relationship) :
      Reachable w →
      RelationshipService.create_relationship gf data w = (.ok rel, w') →
      Reachable w'
  | updateOk (gf : Bool) (id : Nat) (data : RelationshipUpdate)
      (w w' : World) (rel : Relationship) :
      Reachable w →
      RelationshipService.update_relationship gf id data w = (.ok rel, w') →
      Reachable w'
  | deleteOk (gf : Bool) (id : Nat) (w w' : World) (b : Bool) :
      Reachable w →
      RelationshipService.delete_relationship gf id w = (.ok b, w') →
      Reachable w'
  | deleteForNodeOk (gf : Bool) (external_id : String) (node_type : NodeType)
      (w w' : World) (n : Nat) :
      Reachable w →
      RelationshipService.delete_relationships_for_node gf external_id
        node_type w = (.ok n, w') →
      Reachable w'

/-- Whether a row is active and carries the natural key of a create
payload. -/
def activeKeyMatch (data : RelationshipCreate) (r : Relationship) : Prop :=
  r.is_deleted = false ∧ natKey r =
    (data.source_external_id, data.source_type.value, data.target_external_id,
      data.target_type.value, data.relation_type.value, data.edge_key)

instance (data : RelationshipCreate) (r : Relationship) :
    Decidable (activeKeyMatch data r) := by
  unfold activeKeyMatch; infer_instance

/-- Rows of the relational store have pairwise distinct natural keys,
the invariant of the unique constraint uq_assets_relationship_key. -/
def KeysUnique (st : PGState) : Prop :=
  st.rows.Pairwise (fun a b => natKey a ≠ natKey b)

/-- Every stored id is below the fresh-id counter. -/
def IdsFresh (st : PGState) : Prop :=
  ∀ r ∈ st.rows, r.id < st.nextId

/-- Rows of the relational store have pairwise distinct primary keys. -/
def IdsUnique (st : PGState) : Prop :=
  st.rows.Pairwise (fun a b => a.id ≠ b.id)

/-- At most one active relationship per natural key. -/
def AtMostOneActivePerKey (st : PGState) : Prop :=
  ∀ r1 ∈ st.rows, ∀ r2 ∈ st.rows,
    r1.is_deleted = false → r2.is_deleted = false →
      natKey r1 = natKey r2 → r1 = r2

/-- The MERGE pattern of the graph upsert of a relationship. -/
def upsertMatches (rel : Relationship) : GraphEdge → Bool :=
  Neo4jManager.edgeMatches ⟨rel.source_type, rel.source_external_id⟩
    ⟨rel.target_type, rel.target_external_id⟩
    rel.relation_type (toString rel.id)

/-- Boolean substring search on character lists. -/
def listContains (hay needle : List Char) : Bool :=
  match hay with
  | [] => needle.isEmpty
  | _ :: t => needle.isPrefixOf hay || listContains t needle

/-- Boolean substring search on strings. -/
def strContains (hay needle : String) : Bool :=
  listContains hay.toList needle.toList

/-- The fixed MATCH prefix of the path query, up to the relationship
pattern. -/
def cypherHead (source_type : Option NodeType) : String :=
  "\n        MATCH p = (s"
    ++ (match source_type with
        | some t => ":" ++ t.value
        | none => "")
    ++ " \x7bid: $source_id\x7d)"

/-- The fixed remainder of the path query after the relationship
pattern: target node, RETURN projection and LIMIT. -/
def cypherTail (target_type : Option NodeType) : String :=
  "(t"
    ++ (match target_type with
        | some t => ":" ++ t.value
        | none => "")
    ++ " \x7bid: $target_id\x7d)\n"
    ++ "        RETURN\n"
    ++ "            [n IN nodes(p) | \x7bid: n.id, labels: labels(n), properties: properties(n)\x7d] AS nodes,\n"
    ++ "            [r IN relationships(p) | \x7bid: r.id, type: type(r), properties: properties(r)\x7d] AS relationships\n"
    ++ "        LIMIT $limit\n        "

/-- First create payload of the delete-then-recreate scenario. -/
def c3_data1 : RelationshipCreate :=
  ⟨"org:1", "domain:1", .ORGANIZATION, .DOMAIN, .OWNS_DOMAIN, "default",
    [("a", .num 1)], none⟩

/-- Second create payload: same natural key, fresh properties. -/
def c3_data2 : RelationshipCreate :=
  ⟨"org:1", "domain:1", .ORGANIZATION, .DOMAIN, .OWNS_DOMAIN, "default",
    [("b", .num 2)], none⟩

/-- State after creating the first relationship on empty stores. -/
def c3_w1 : World :=
  (RelationshipService.create_relationship false c3_data1 World.empty).2

/-- State after then deleting it through the service. -/
def c3_w2 : World :=
  (RelationshipService.delete_relationship false 0 c3_w1).2

/-- A concrete relationship row used by witnesses. -/
def sampleRel : Relationship :=
  ⟨0, "org:1", "Organization", "domain:1", "Domain", "OWNS_DOMAIN", "default",
    [("a", .num 1)], false, none, 0, 0, none⟩

theorem propsGet_cons (a : String × PropValue) (l : Props) (k : String) :
    propsGet (a :: l) k = if k = a.1 then some a.2 else propsGet l k := by
  rcases a with ⟨ka, va⟩
  by_cases h : k = ka
  · simp [propsGet, List.lookup, h]
  · have hne : (k == ka) = false := beq_eq_false_iff_ne.mpr h
    simp [propsGet, List.lookup, hne, h]

theorem propsGet_append (l₁ l₂ : Props) (k : String) :
    propsGet (l₁ ++ l₂) k = (propsGet l₁ k <|> propsGet l₂ k) := by
  induction l₁ with
  | nil => simp [propsGet]
  | cons a t ih =>
    rw [List.cons_append, propsGet_cons, propsGet_cons]
    by_cases h : k = a.1 <;> simp [h, ih]

theorem propsHasKey_isSome (p : Props) (k : String) :
    propsHasKey p k = true ↔ (propsGet p k).isSome = true := by
  induction p with
  | nil => simp [propsHasKey, propsGet]
  | cons a t ih =>
    rw [propsGet_cons]
    by_cases h : k = a.1
    · simp [propsHasKey, h]
    · simp only [propsHasKey, List.any_cons] at *
      simp [h, ih, Ne.symm h]

theorem propsHasKey_mem_keys (p : Props) (k : String) :
    propsHasKey p k = true ↔ k ∈ p.map Prod.fst := by
  simp [propsHasKey, List.any_eq_true, List.mem_map, beq_iff_eq]

theorem propsGet_map_override (b u : Props) (k : String) :
    propsGet (b.map (fun kv => (kv.1, (propsGet u kv.1).getD kv.2))) k
      = (propsGet b k).map (fun v => (propsGet u k).getD v) := by
  induction b with
  | nil => simp [propsGet]
  | cons a t ih =>
    rw [List.map_cons, propsGet_cons, propsGet_cons]
    by_cases h : k = a.1
    · simp [h]
    · simp [h, ih]

theorem propsGet_filterKeys (u : Props) (q : String → Bool) (k : String) :
    propsGet (u.filter (fun kv => q kv.1)) k
      = if q k then propsGet u k else none := by
  induction u with
  | nil => simp [propsGet]
  | cons a t ih =>
    rw [List.filter_cons]
    by_cases hq : q a.1
    · rw [if_pos hq, propsGet_cons, propsGet_cons]
      by_cases h : k = a.1
      · subst h; simp [hq]
      · simp [h, ih]
    · rw [if_neg hq]
      by_cases h : k = a.1
      · subst h; simp [hq, ih]
      · rw [propsGet_cons, if_neg h, ih]

theorem propsGet_dictMerge (b u : Props) (k : String) :
    propsGet (dictMerge b u) k = (propsGet u k <|> propsGet b k) := by
  unfold dictMerge
  rw [propsGet_append, propsGet_map_override,
    propsGet_filterKeys u (fun x => !propsHasKey b x) k]
  by_cases hb : propsHasKey b k = true
  · obtain ⟨v, hv⟩ := Option.isSome_iff_exists.mp ((propsHasKey_isSome b k).mp hb)
    rw [hv, hb]
    cases propsGet u k <;> simp
  · have hbnone : propsGet b k = none := by
      cases h : propsGet b k with
      | none => rfl
      | some v =>
        exact absurd ((propsHasKey_isSome b k).mpr (by simp [h])) hb
    rw [hbnone]
    have hbf : propsHasKey b k = false := by
      cases hbb : propsHasKey b k
      · rfl
      · exact absurd hbb hb
    rw [hbf]
    cases propsGet u k <;> simp

theorem propsGet_dictMerge_override (b u : Props) (k : String) (v : PropValue)
    (h : propsGet u k = some v) : propsGet (dictMerge b u) k = some v := by
  rw [propsGet_dictMerge, h]; rfl

theorem propsGet_dictMerge_retain (b u : Props) (k : String)
    (h : propsGet u k = none) : propsGet (dictMerge b u) k = propsGet b k := by
  rw [propsGet_dictMerge, h]; cases propsGet b k <;> rfl

theorem propsGet_of_nodup_mem (u : Props) (hu : nodupKeys u)
    (kv : String × PropValue) (h : kv ∈ u) : propsGet u kv.1 = some kv.2 := by
  induction u with
  | nil => cases h
  | cons a t ih =>
    unfold nodupKeys at hu
    rw [List.map_cons, List.nodup_cons] at hu
    rw [propsGet_cons]
    rcases List.mem_cons.mp h with rfl | hmem
    · simp
    · have hne : kv.1 ≠ a.1 := by
        intro he
        exact hu.1 (he ▸ List.mem_map_of_mem Prod.fst hmem)
      rw [if_neg hne]
      exact ih hu.2 hmem

theorem propsHasKey_of_mem (u : Props) (kv : String × PropValue) (h : kv ∈ u) :
    propsHasKey u kv.1 = true := by
  simp only [propsHasKey, List.any_eq_true]
  exact ⟨kv, h, by simp⟩

theorem dictMerge_nil (u : Props) : dictMerge [] u = u := by
  simp [dictMerge, propsHasKey]

theorem dictMerge_idem (b u : Props) (hu : nodupKeys u) :
    dictMerge (dictMerge b u) u = dictMerge b u := by
  conv_lhs => rw [dictMerge]
  have h1 : u.filter (fun kv => !(propsHasKey (dictMerge b u) kv.1)) = [] := by
    rw [List.filter_eq_nil_iff]
    intro kv hkv
    have hget : propsGet (dictMerge b u) kv.1 = some kv.2 :=
      propsGet_dictMerge_override _ _ _ _ (propsGet_of_nodup_mem u hu kv hkv)
    have : propsHasKey (dictMerge b u) kv.1 = true :=
      (propsHasKey_isSome _ _).mpr (by simp [hget])
    simp [this]
  have h2 : (dictMerge b u).map (fun kv => (kv.1, (propsGet u kv.1).getD kv.2))
      = dictMerge b u := by
    have hpt : ∀ kv ∈ dictMerge b u,
        (kv.1, (propsGet u kv.1).getD kv.2) = (id kv : String × PropValue) := by
      intro kv hkv
      rcases List.mem_append.mp hkv with hm | hf
      · obtain ⟨a, _, rfl⟩ := List.mem_map.mp hm
        cases h : propsGet u a.1 <;> simp [h]
      · have hmem : kv ∈ u := List.mem_of_mem_filter hf
        have := propsGet_of_nodup_mem u hu kv hmem
        simp [this]
    rw [List.map_congr_left hpt, List.map_id]
  rw [h1, h2, List.append_nil]

theorem dictMerge_self (p : Props) (hp : nodupKeys p) : dictMerge p p = p := by
  have h := dictMerge_idem [] p hp
  rwa [dictMerge_nil] at h

theorem nodupKeys_dictMerge (b u : Props) (hb : nodupKeys b) (hu : nodupKeys u) :
    nodupKeys (dictMerge b u) := by
  unfold nodupKeys dictMerge
  rw [List.map_append, List.nodup_append]
  refine ⟨?_, ?_, ?_⟩
  · rw [List.map_map]
    have : (Prod.fst ∘ fun kv : String × PropValue =>
        (kv.1, (propsGet u kv.1).getD kv.2)) = Prod.fst := by
      funext kv; rfl
    rw [this]; exact hb
  · exact List.Nodup.sublist ((List.filter_sublist u).map Prod.fst) hu
  · intro a ha hb'
    rw [List.map_map] at ha
    have haf : a ∈ b.map Prod.fst := by
      have : (Prod.fst ∘ fun kv : String × PropValue =>
          (kv.1, (propsGet u kv.1).getD kv.2)) = Prod.fst := by
        funext kv; rfl
      rwa [this] at ha
    obtain ⟨kv, hkv, rfl⟩ := List.mem_map.mp hb'
    have := List.of_mem_filter hkv
    rw [Bool.not_eq_eq_eq_not, Bool.not_true] at this
    exact absurd ((propsHasKey_mem_keys b kv.1).mpr haf)
      (by simp [this])

/-- C10: an update request whose properties field is omitted returns the
stored relationship unchanged and performs no relational write and no
graph-mirror call; both stores are left exactly as they were.  The flag
that makes every mirror call fail is arbitrary here, so success of the
operation shows that no mirror call happens. -/
theorem update_without_properties_is_noop (gf : Bool) (id : Nat) (w : World)
    (r : Relationship)
    (h : RelationshipRepository.get_by_id id false w.pg = some r) :
    RelationshipService.update_relationship gf id ⟨none⟩ w = (.ok r, w) := by
  unfold RelationshipService.update_relationship
  rw [h]

/-- Witness for C10: updating the single stored relationship with an
omitted properties field, under an always-failing mirror, still succeeds
and changes nothing. -/
theorem update_without_properties_is_noop_witness :
    RelationshipService.update_relationship true 0 ⟨none⟩ c3_w1 =
      (.ok ⟨0, "org:1", "Organization", "domain:1", "Domain", "OWNS_DOMAIN",
        "default", [("a", .num 1)], false, none, 0, 0, none⟩, c3_w1) :=
  update_without_properties_is_noop true 0 c3_w1 _ rfl

/-- C5: when the graph mirror fails, no mutating service operation
returns success: create, property update (with a properties payload),
delete and delete-for-node all re-raise the mirror error to the
caller. -/
theorem mirror_failure_never_swallowed :
    (∀ (data : RelationshipCreate) (w : World),
      ((RelationshipService.create_relationship true data w).1).isOk = false)
    ∧ (∀ (id : Nat) (ps : Props) (w : World),
      ((RelationshipService.update_relationship true id ⟨some ps⟩ w).1).isOk = false)
    ∧ (∀ (id : Nat) (w : World),
      ((RelationshipService.delete_relationship true id w).1).isOk = false)
    ∧ (∀ (external_id : String) (node_type : NodeType) (w : World),
      ((RelationshipService.delete_relationships_for_node true external_id
        node_type w).1).isOk = false) := by
  refine ⟨?_, ?_, ?_, ?_⟩
  · intro data w
    unfold RelationshipService.create_relationship
    dsimp only
    split
    · rfl
    · split
      · rfl
      · split
        · rfl
        · next heq =>
          simp [RelationshipGraphService.upsert_relationship] at heq
  · intro id ps w
    unfold RelationshipService.update_relationship
    split
    · rfl
    · split
      · next heq => exact absurd heq (by simp)
      · dsimp only
        split
        · rfl
        · simp [RelationshipGraphService.upsert_relationship, Except.isOk, Except.toBool]
  · intro id w
    unfold RelationshipService.delete_relationship
    split
    · rfl
    · simp [RelationshipGraphService.delete_relationship, Except.isOk, Except.toBool]
  · intro external_id node_type w
    unfold RelationshipService.delete_relationships_for_node
    dsimp only
    simp [RelationshipGraphService.delete_node_relationships, Except.isOk, Except.toBool]

theorem update_properties_ok (id : Nat) (props : Props) (st : PGState)
    (r : Relationship) (h : RelationshipRepository.get_by_id id false st = some r) :
    RelationshipRepository.update_properties id props st =
      (.ok { r with properties := props, updated_at := st.clock },
        ⟨st.rows.map (fun q => if q.id = id && q.is_deleted = false then
            { r with properties := props, updated_at := st.clock } else q),
          st.nextId, st.clock + 1⟩) := by
  unfold RelationshipRepository.update_properties
  rw [h]

theorem get_by_id_found_active (id : Nat) (st : PGState) (r : Relationship)
    (h : RelationshipRepository.get_by_id id false st = some r) :
    r.id = id ∧ r.is_deleted = false := by
  have hp := List.find?_some h
  simp only [Bool.and_eq_true, Bool.false_or, decide_eq_true_eq] at hp
  exact hp

theorem get_by_id_after_update (id : Nat) (st : PGState) (r r' : Relationship)
    (n c : Nat) (h : RelationshipRepository.get_by_id id false st = some r)
    (hid : r'.id = id) (hdel : r'.is_deleted = false) :
    RelationshipRepository.get_by_id id false
      ⟨st.rows.map (fun q => if q.id = id && q.is_deleted = false then r' else q),
        n, c⟩ = some r' := by
  unfold RelationshipRepository.get_by_id at *
  rw [List.find?_map]
  have hcomp : ((fun q : Relationship => q.id = id && (false || q.is_deleted = false))
      ∘ (fun q => if q.id = id && q.is_deleted = false then r' else q))
      = (fun q : Relationship => q.id = id && (false || q.is_deleted = false)) := by
    funext q
    by_cases hc : (q.id = id && q.is_deleted = false) = true
    · simp only [Function.comp_apply, if_pos hc]
      simp only [Bool.and_eq_true, decide_eq_true_eq] at hc
      simp [hid, hdel, hc.1, hc.2]
    · have hc' : ¬(q.id = id ∧ q.is_deleted = false) := by
        simpa using hc
      simp [Function.comp_apply, hc']
  rw [hcomp, h]
  have hp := List.find?_some h
  simp only [Bool.and_eq_true, Bool.false_or, decide_eq_true_eq] at hp
  simp [hp.1, hp.2]

/-- C8: the property-update merge lets new keys override same-named
keys, retains all other existing keys, and is idempotent under repeated
identical patches, both for the merge function itself and for the
stored properties across two identical service-level updates. -/
theorem update_properties_merge_idempotent (base u : Props) (hu : nodupKeys u) :
    (∀ k v, propsGet u k = some v →
      propsGet (RelationshipService.merge_properties base (some u)) k = some v)
    ∧ (∀ k, propsGet u k = none →
      propsGet (RelationshipService.merge_properties base (some u)) k
        = propsGet base k)
    ∧ RelationshipService.merge_properties
        (RelationshipService.merge_properties base (some u)) (some u)
      = RelationshipService.merge_properties base (some u)
    ∧ (∀ (id : Nat) (w w1 : World) (rel1 : Relationship),
        RelationshipService.update_relationship false id ⟨some u⟩ w
          = (.ok rel1, w1) →
        ∃ rel2 w2,
          RelationshipService.update_relationship false id ⟨some u⟩ w1
            = (.ok rel2, w2)
          ∧ rel2.properties = rel1.properties) := by
  refine ⟨?_, ?_, ?_, ?_⟩
  · intro k v h
    exact propsGet_dictMerge_override base u k v h
  · intro k h
    exact propsGet_dictMerge_retain base u k h
  · exact dictMerge_idem base u hu
  · intro id w w1 rel1 heq
    unfold RelationshipService.update_relationship at heq
    cases hg : RelationshipRepository.get_by_id id false w.pg with
    | none => rw [hg] at heq; exact absurd heq (by simp)
    | some rel =>
      rw [hg] at heq
      dsimp only at heq
      rw [update_properties_ok id _ w.pg rel hg] at heq
      dsimp only [RelationshipGraphService.upsert_relationship] at heq
      rw [if_neg (by simp)] at heq
      rw [Prod.mk.injEq] at heq
      obtain ⟨h1, hw1⟩ := heq
      injection h1 with h1
      obtain ⟨hid, hdel⟩ := get_by_id_found_active id w.pg rel hg
      have hg1 : RelationshipRepository.get_by_id id false w1.pg = some rel1 := by
        rw [← hw1]
        dsimp only
        rw [h1]
        exact get_by_id_after_update id w.pg rel rel1 _ _ hg
          (by rw [← h1]; exact hid) (by rw [← h1]; exact hdel)
      refine ⟨{ rel1 with
          properties := RelationshipService.merge_properties rel1.properties (some u),
          updated_at := w1.pg.clock },
        ⟨⟨w1.pg.rows.map (fun q => if q.id = id && q.is_deleted = false then
            { rel1 with
              properties :=
                RelationshipService.merge_properties rel1.properties (some u),
              updated_at := w1.pg.clock } else q),
          w1.pg.nextId, w1.pg.clock + 1⟩,
          RelationshipGraphService.upsertGraph
            { rel1 with
              properties :=
                RelationshipService.merge_properties rel1.properties (some u),
              updated_at := w1.pg.clock } w1.graph⟩, ?_, ?_⟩
      · unfold RelationshipService.update_relationship
        rw [hg1]
        dsimp only
        rw [update_properties_ok id _ w1.pg rel1 hg1]
        dsimp only [RelationshipGraphService.upsert_relationship]
        rw [if_neg (by simp)]
      · show RelationshipService.merge_properties rel1.properties (some u)
          = rel1.properties
        rw [← h1]
        exact dictMerge_idem rel.properties u hu

/-- Witness for C8: merging the same patch twice over a concrete base
dict equals merging it once. -/
theorem update_properties_merge_idempotent_witness :
    RelationshipService.merge_properties
        (RelationshipService.merge_properties [("a", PropValue.num 1)]
          (some [("a", PropValue.num 2), ("b", PropValue.str "x")]))
        (some [("a", PropValue.num 2), ("b", PropValue.str "x")])
      = RelationshipService.merge_properties [("a", PropValue.num 1)]
          (some [("a", PropValue.num 2), ("b", PropValue.str "x")]) :=
  (update_properties_merge_idempotent [("a", PropValue.num 1)]
    [("a", PropValue.num 2), ("b", PropValue.str "x")] (by decide)).2.2.1

/-- C2: a create request whose source/target node types differ from the
registry pair of its relation type fails pydantic validation with an
error naming the expected pair, and the failure happens before the
service writes anything: the endpoint returns with both stores exactly
as they were. -/
theorem create_type_rule_mismatch_rejected (gf : Bool)
    (i : RelationshipCreateInput) (S T : NodeType) (w : World)
    (hfields : RelationshipCreate.fieldsOk i = true)
    (hrule : rulesGet i.relation_type = some (S, T))
    (hmis : i.source_type ≠ S ∨ i.target_type ≠ T) :
    RelationshipCreate.validate i = .error (.ValidationError
      ("Invalid source/target types for " ++ i.relation_type.value
        ++ ": expected " ++ S.value ++ " -> " ++ T.value
        ++ ", got " ++ i.source_type.value ++ " -> " ++ i.target_type.value))
    ∧ RelationshipService.create_endpoint gf i w
      = (.error (.ValidationError
          ("Invalid source/target types for " ++ i.relation_type.value
            ++ ": expected " ++ S.value ++ " -> " ++ T.value
            ++ ", got " ++ i.source_type.value ++ " -> " ++ i.target_type.value)), w) := by
  have hne : (i.source_type, i.target_type) ≠ (S, T) := by
    intro he
    rw [Prod.mk.injEq] at he
    rcases hmis with hm | hm <;> exact hm (by simp [he.1, he.2])
  have hval : RelationshipCreate.validate i = .error (.ValidationError
      ("Invalid source/target types for " ++ i.relation_type.value
        ++ ": expected " ++ S.value ++ " -> " ++ T.value
        ++ ", got " ++ i.source_type.value ++ " -> " ++ i.target_type.value)) := by
    unfold RelationshipCreate.validate
    rw [if_pos hfields, hrule]
    dsimp only
    rw [if_pos hne]
  refine ⟨hval, ?_⟩
  unfold RelationshipService.create_endpoint
  rw [hval]

/-- Witness for C2: the scenario of the specification, creating
OWNS_DOMAIN with an IP source, is rejected naming the expected pair
Organization to Domain, with both stores untouched. -/
theorem create_type_rule_mismatch_rejected_witness :
    RelationshipCreate.validate
      ⟨"ip:1", "domain:1", .IP, .DOMAIN, .OWNS_DOMAIN, "default", [], none⟩
      = .error (.ValidationError
        ("Invalid source/target types for " ++ "OWNS_DOMAIN"
          ++ ": expected " ++ "Organization" ++ " -> " ++ "Domain"
          ++ ", got " ++ "IP" ++ " -> " ++ "Domain"))
    ∧ RelationshipService.create_endpoint false
        ⟨"ip:1", "domain:1", .IP, .DOMAIN, .OWNS_DOMAIN, "default", [], none⟩
        World.empty
      = (.error (.ValidationError
          ("Invalid source/target types for " ++ "OWNS_DOMAIN"
            ++ ": expected " ++ "Organization" ++ " -> " ++ "Domain"
            ++ ", got " ++ "IP" ++ " -> " ++ "Domain")), World.empty) :=
  create_type_rule_mismatch_rejected false
    ⟨"ip:1", "domain:1", .IP, .DOMAIN, .OWNS_DOMAIN, "default", [], none⟩
    .ORGANIZATION .DOMAIN World.empty (by decide) (by decide)
    (Or.inl (by decide))

/-- C7: path-query validation applies the documented defaults
(direction BOTH, min_depth 1, max_depth 4, limit 20); every accepted
query satisfies min_depth at least 1, max_depth at least min_depth, and
limit between 1 and 100; and a request with max_depth below min_depth
is rejected as a validation error with no query ever built or sent to
the store. -/
theorem path_query_defaults_and_bounds (sid tid : String)
    (hsid : 1 ≤ sid.length ∧ sid.length ≤ 255)
    (htid : 1 ≤ tid.length ∧ tid.length ≤ 255) :
    RelationshipPathQuery.validate
        ⟨sid, tid, none, none, none, none, none, none, none⟩
      = .ok ⟨sid, tid, none, none, none, .BOTH, 1, 4, 20⟩
    ∧ (∀ (i : RelationshipPathQueryInput) (q : RelationshipPathQuery),
        RelationshipPathQuery.validate i = .ok q →
          1 ≤ q.min_depth ∧ q.min_depth ≤ q.max_depth
            ∧ 1 ≤ q.limit ∧ q.limit ≤ 100)
    ∧ (∀ i : RelationshipPathQueryInput,
        i.max_depth.getD 4 < i.min_depth.getD 1 →
          (∃ msg, RelationshipPathQuery.validate i
            = .error (.ValidationError msg))
          ∧ RelationshipGraphService.find_paths_endpoint_calls i = []) := by
  refine ⟨?_, ?_, ?_⟩
  · simp [RelationshipPathQuery.validate, hsid, htid]
  · intro i q h
    unfold RelationshipPathQuery.validate at h
    dsimp only at h
    split at h
    · exact absurd h (by simp)
    split at h
    · exact absurd h (by simp)
    split at h
    · exact absurd h (by simp)
    split at h
    · exact absurd h (by simp)
    split at h
    · exact absurd h (by simp)
    split at h
    · exact absurd h (by simp)
    split at h
    · exact absurd h (by simp)
    injection h with h
    subst h
    dsimp only
    omega
  · intro i hbad
    have hval : ∃ msg, RelationshipPathQuery.validate i
        = .error (.ValidationError msg) := by
      unfold RelationshipPathQuery.validate
      dsimp only
      by_cases h1 : ¬(1 ≤ i.source_external_id.length
          ∧ i.source_external_id.length ≤ 255)
      · rw [if_pos h1]; exact ⟨_, rfl⟩
      rw [if_neg h1]
      by_cases h2 : ¬(1 ≤ i.target_external_id.length
          ∧ i.target_external_id.length ≤ 255)
      · rw [if_pos h2]; exact ⟨_, rfl⟩
      rw [if_neg h2]
      by_cases h3 : i.min_depth.getD 1 < 1
      · rw [if_pos h3]; exact ⟨_, rfl⟩
      rw [if_neg h3]
      by_cases h4 : i.max_depth.getD 4 < 1
      · rw [if_pos h4]; exact ⟨_, rfl⟩
      rw [if_neg h4]
      by_cases h5 : i.limit.getD 20 < 1
      · rw [if_pos h5]; exact ⟨_, rfl⟩
      rw [if_neg h5]
      by_cases h6 : 100 < i.limit.getD 20
      · rw [if_pos h6]; exact ⟨_, rfl⟩
      rw [if_neg h6, if_pos hbad]
      exact ⟨_, rfl⟩
    refine ⟨hval, ?_⟩
    obtain ⟨msg, hmsg⟩ := hval
    unfold RelationshipGraphService.find_paths_endpoint_calls
    rw [hmsg]

/-- Witness for C7: a minimal request with every optional field omitted
validates to the documented defaults. -/
theorem path_query_defaults_and_bounds_witness :
    RelationshipPathQuery.validate
        ⟨"a", "b", none, none, none, none, none, none, none⟩
      = .ok ⟨"a", "b", none, none, none, .BOTH, 1, 4, 20⟩ :=
  (path_query_defaults_and_bounds "a" "b" (by decide) (by decide)).1

theorem build_path_query_decomposition (q : RelationshipPathQuery) :
    (RelationshipGraphService.build_path_query q).1
      = cypherHead q.source_type ++ RelationshipGraphService.relPattern q
        ++ cypherTail q.target_type := by
  unfold RelationshipGraphService.build_path_query cypherHead cypherTail
  cases q.source_type <;> cases q.target_type <;>
    simp [String.append_assoc]

set_option maxRecDepth 4000 in
/-- C6: for a path query carrying a non-empty relationship-type filter,
the planner builds a single traversal statement whose relationship
pattern embeds the type filter as a bar-joined list directly inside the
variable-length pattern together with the inclusive depth range, with
direction OUT directed forward, IN directed backward and BOTH
undirected; the fixed head and tail of the statement contain no WHERE
post-filter; the parameters pass the requested limit to the LIMIT
clause; and the planner issues exactly this one statement to the
store. -/
theorem path_query_construction (q : RelationshipPathQuery)
    (ts : List RelationshipType) (hts : q.relation_types = some ts)
    (hne : ts ≠ []) :
    ((RelationshipGraphService.build_path_query q).1
      = cypherHead q.source_type
        ++ (match q.direction with
            | .OUT => "-[rels:"
                ++ String.intercalate "|" (ts.map RelationshipType.value)
                ++ "*" ++ toString q.min_depth ++ ".." ++ toString q.max_depth
                ++ "]->"
            | .IN => "<-[rels:"
                ++ String.intercalate "|" (ts.map RelationshipType.value)
                ++ "*" ++ toString q.min_depth ++ ".." ++ toString q.max_depth
                ++ "]-"
            | .BOTH => "-[rels:"
                ++ String.intercalate "|" (ts.map RelationshipType.value)
                ++ "*" ++ toString q.min_depth ++ ".." ++ toString q.max_depth
                ++ "]-")
        ++ cypherTail q.target_type)
    ∧ (RelationshipGraphService.build_path_query q).2
      = ⟨q.source_external_id, q.target_external_id, q.limit⟩
    ∧ RelationshipGraphService.find_paths_calls q
      = [RelationshipGraphService.build_path_query q]
    ∧ strContains (cypherHead q.source_type) "WHERE" = false
    ∧ strContains (cypherTail q.target_type) "WHERE" = false
    ∧ strContains (cypherTail q.target_type) "LIMIT $limit" = true := by
  have hpat : RelationshipGraphService.relTypePattern q
      = ":" ++ String.intercalate "|" (ts.map RelationshipType.value) := by
    unfold RelationshipGraphService.relTypePattern
    rw [hts]
    dsimp only
    rw [if_neg (by simp [List.isEmpty_iff, hne])]
  refine ⟨?_, rfl, rfl, ?_, ?_, ?_⟩
  · rw [build_path_query_decomposition]
    have hmid : RelationshipGraphService.relPattern q
        = (match q.direction with
            | .OUT => "-[rels:"
                ++ String.intercalate "|" (ts.map RelationshipType.value)
                ++ "*" ++ toString q.min_depth ++ ".." ++ toString q.max_depth
                ++ "]->"
            | .IN => "<-[rels:"
                ++ String.intercalate "|" (ts.map RelationshipType.value)
                ++ "*" ++ toString q.min_depth ++ ".." ++ toString q.max_depth
                ++ "]-"
            | .BOTH => "-[rels:"
                ++ String.intercalate "|" (ts.map RelationshipType.value)
                ++ "*" ++ toString q.min_depth ++ ".." ++ toString q.max_depth
                ++ "]-") := by
      unfold RelationshipGraphService.relPattern
        RelationshipGraphService.depthPattern
      have hout : ("-[rels" : String) ++ ":" = "-[rels:" := rfl
      have hin : ("<-[rels" : String) ++ ":" = "<-[rels:" := rfl
      cases q.direction <;>
        simp [hpat, ← String.append_assoc, hout, hin]
    rw [hmid]
  · cases hs : q.source_type with
    | none => decide
    | some t => cases t <;> decide
  · cases ht : q.target_type with
    | none => decide
    | some t => cases t <;> decide
  · cases ht : q.target_type with
    | none => decide
    | some t => cases t <;> decide

/-- Witness for C6: the end-to-end scenario query of the specification,
an outward path search over OWNS_DOMAIN and RESOLVES_TO with depth one
to three. -/
theorem path_query_construction_witness :
    (RelationshipGraphService.build_path_query
      ⟨"org:1", "ip:1", none, none,
        some [.OWNS_DOMAIN, .RESOLVES_TO], .OUT, 1, 3, 20⟩).1
      = cypherHead none
        ++ ("-[rels:"
            ++ String.intercalate "|"
              ([RelationshipType.OWNS_DOMAIN,
                RelationshipType.RESOLVES_TO].map RelationshipType.value)
            ++ "*" ++ toString (1 : Int) ++ ".." ++ toString (3 : Int)
            ++ "]->")
        ++ cypherTail none :=
  (path_query_construction
    ⟨"org:1", "ip:1", none, none,
      some [.OWNS_DOMAIN, .RESOLVES_TO], .OUT, 1, 3, 20⟩
    [.OWNS_DOMAIN, .RESOLVES_TO] rfl (by decide)).1

theorem mergeNode_edges (l i : String) (g : Neo4jState) :
    (Neo4jManager.mergeNode l i g).edges = g.edges := by
  unfold Neo4jManager.mergeNode
  split <;> rfl

theorem mergeNode_present (l i : String) (g : Neo4jState)
    (h : g.nodes.any (fun n => n.label = l && n.node_id = i) = true) :
    Neo4jManager.mergeNode l i g = g := by
  unfold Neo4jManager.mergeNode
  rw [if_pos h]

theorem mergeNode_mem_self (l i : String) (g : Neo4jState) :
    (Neo4jManager.mergeNode l i g).nodes.any
      (fun n => n.label = l && n.node_id = i) = true := by
  unfold Neo4jManager.mergeNode
  split
  · next h => exact h
  · dsimp only
    rw [List.any_append]
    simp

theorem mergeNode_mono (l i l' i' : String) (g : Neo4jState)
    (h : g.nodes.any (fun n => n.label = l && n.node_id = i) = true) :
    (Neo4jManager.mergeNode l' i' g).nodes.any
      (fun n => n.label = l && n.node_id = i) = true := by
  unfold Neo4jManager.mergeNode
  split
  · exact h
  · dsimp only
    rw [List.any_append, h]
    rfl

theorem nodupKeys_build_properties (rel : Relationship)
    (hnodup : nodupKeys rel.properties) :
    nodupKeys (RelationshipGraphService.build_relationship_properties rel) := by
  unfold RelationshipGraphService.build_relationship_properties
  have hbook : nodupKeys
      ([ ("edge_key", PropValue.str rel.edge_key)
       , ("source_external_id", .str rel.source_external_id)
       , ("source_type", .str rel.source_type)
       , ("target_external_id", .str rel.target_external_id)
       , ("target_type", .str rel.target_type)
       , ("created_at", .str (toString rel.created_at))
       , ("updated_at", .str (toString rel.updated_at)) ] : Props) := by
    simp [nodupKeys]
  cases hc : rel.created_by with
  | none => exact nodupKeys_dictMerge _ _ hnodup hbook
  | some c =>
    dsimp only
    split
    · exact nodupKeys_dictMerge _ _ (nodupKeys_dictMerge _ _ hnodup hbook)
        (by simp [nodupKeys])
    · exact nodupKeys_dictMerge _ _ hnodup hbook

theorem upsertGraph_not_present (rel : Relationship) (g : Neo4jState)
    (hnone : g.edges.any (upsertMatches rel) = false) :
    RelationshipGraphService.upsertGraph rel g =
      ⟨(Neo4jManager.mergeNode rel.target_type rel.target_external_id
          (Neo4jManager.mergeNode rel.source_type rel.source_external_id g)).nodes,
        g.edges ++ [⟨⟨rel.source_type, rel.source_external_id⟩,
          ⟨rel.target_type, rel.target_external_id⟩, rel.relation_type,
          toString rel.id,
          RelationshipGraphService.build_relationship_properties rel⟩]⟩ := by
  unfold upsertMatches at hnone
  unfold RelationshipGraphService.upsertGraph Neo4jManager.merge_relationship
  dsimp only
  rw [mergeNode_edges, mergeNode_edges]
  rw [if_neg (by simp [hnone])]

theorem upsertGraph_already_mirrored (rel : Relationship)
    (N : List GraphNodeRec) (E : List GraphEdge)
    (hnodup : nodupKeys rel.properties)
    (hs : N.any (fun n => n.label = rel.source_type
        && n.node_id = rel.source_external_id) = true)
    (ht : N.any (fun n => n.label = rel.target_type
        && n.node_id = rel.target_external_id) = true)
    (hmatch : ∀ e ∈ E, upsertMatches rel e = false) :
    RelationshipGraphService.upsertGraph rel
      ⟨N, E ++ [⟨⟨rel.source_type, rel.source_external_id⟩,
        ⟨rel.target_type, rel.target_external_id⟩, rel.relation_type,
        toString rel.id,
        RelationshipGraphService.build_relationship_properties rel⟩]⟩
      = ⟨N, E ++ [⟨⟨rel.source_type, rel.source_external_id⟩,
        ⟨rel.target_type, rel.target_external_id⟩, rel.relation_type,
        toString rel.id,
        RelationshipGraphService.build_relationship_properties rel⟩]⟩ := by
  have hP := nodupKeys_build_properties rel hnodup
  have hself : Neo4jManager.edgeMatches
      ⟨rel.source_type, rel.source_external_id⟩
      ⟨rel.target_type, rel.target_external_id⟩
      rel.relation_type (toString rel.id)
      ⟨⟨rel.source_type, rel.source_external_id⟩,
        ⟨rel.target_type, rel.target_external_id⟩, rel.relation_type,
        toString rel.id,
        RelationshipGraphService.build_relationship_properties rel⟩ = true := by
    simp [Neo4jManager.edgeMatches]
  unfold upsertMatches at hmatch
  unfold RelationshipGraphService.upsertGraph Neo4jManager.merge_relationship
    Neo4jManager.mergeNode
  dsimp only
  rw [if_pos hs]
  dsimp only
  rw [if_pos ht]
  dsimp only
  have hE : (E ++ [(⟨⟨rel.source_type, rel.source_external_id⟩,
      ⟨rel.target_type, rel.target_external_id⟩, rel.relation_type,
      toString rel.id,
      RelationshipGraphService.build_relationship_properties rel⟩ : GraphEdge)]).any
      (Neo4jManager.edgeMatches
        ⟨rel.source_type, rel.source_external_id⟩
        ⟨rel.target_type, rel.target_external_id⟩
        rel.relation_type (toString rel.id)) = true := by
    rw [List.any_append]
    simp [hself]
  rw [if_pos hE]
  congr 1
  rw [List.map_append]
  congr 1
  · conv_rhs => rw [← List.map_id E]
    apply List.map_congr_left
    intro e he
    simp [hmatch e he]
  · simp only [List.map_cons, List.map_nil]
    simp only [hself, if_true]
    rw [dictMerge_self _ hP]

/-- C4: upserting a relationship whose edge is not yet mirrored creates
exactly one matching edge in the graph store, and upserting the same
relationship a second time leaves the graph store completely unchanged:
the MERGE pattern finds the edge by relationship id and only re-applies
its properties instead of creating a second edge. -/
theorem graph_upsert_idempotent (rel : Relationship) (g : Neo4jState)
    (hnodup : nodupKeys rel.properties)
    (hnone : g.edges.any (upsertMatches rel) = false) :
    ((RelationshipGraphService.upsertGraph rel g).edges.countP
      (upsertMatches rel) = 1)
    ∧ RelationshipGraphService.upsertGraph rel
        (RelationshipGraphService.upsertGraph rel g)
      = RelationshipGraphService.upsertGraph rel g := by
  have hP := nodupKeys_build_properties rel hnodup
  have hself : upsertMatches rel
      ⟨⟨rel.source_type, rel.source_external_id⟩,
        ⟨rel.target_type, rel.target_external_id⟩, rel.relation_type,
        toString rel.id,
        RelationshipGraphService.build_relationship_properties rel⟩ = true := by
    simp [upsertMatches, Neo4jManager.edgeMatches]
  have hedge : upsertMatches rel = Neo4jManager.edgeMatches
      ⟨rel.source_type, rel.source_external_id⟩
      ⟨rel.target_type, rel.target_external_id⟩
      rel.relation_type (toString rel.id) := rfl
  have hnone' : ∀ e ∈ g.edges, Neo4jManager.edgeMatches
      ⟨rel.source_type, rel.source_external_id⟩
      ⟨rel.target_type, rel.target_external_id⟩
      rel.relation_type (toString rel.id) e = false := by
    intro e he
    have h := List.any_eq_false.mp hnone e he
    rw [hedge] at h
    simpa using h
  constructor
  · rw [upsertGraph_not_present rel g hnone]
    dsimp only
    rw [List.countP_append]
    have h0 : g.edges.countP (upsertMatches rel) = 0 := by
      rw [List.countP_eq_zero]
      intro e he
      have := List.any_eq_false.mp hnone e he
      simpa using this
    rw [h0]
    simp [List.countP_cons, hself]
  · rw [upsertGraph_not_present rel g hnone]
    exact upsertGraph_already_mirrored rel _ _ hnodup
      (mergeNode_mono _ _ _ _ _ (mergeNode_mem_self _ _ _))
      (mergeNode_mem_self _ _ _)
      (fun e he => Bool.not_eq_true _ ▸
        Bool.eq_false_iff.mpr (List.any_eq_false.mp hnone e he))

/-- Witness for C4: mirroring a concrete relationship into an empty
graph store twice yields exactly one matching edge and an unchanged
second state. -/
theorem graph_upsert_idempotent_witness :
    ((RelationshipGraphService.upsertGraph sampleRel Neo4jState.empty).edges.countP
      (upsertMatches sampleRel) = 1)
    ∧ RelationshipGraphService.upsertGraph sampleRel
        (RelationshipGraphService.upsertGraph sampleRel Neo4jState.empty)
      = RelationshipGraphService.upsertGraph sampleRel Neo4jState.empty :=
  graph_upsert_idempotent sampleRel Neo4jState.empty (by decide) (by decide)

theorem create_ok_state (gf : Bool) (data : RelationshipCreate) (w w' : World)
    (rel : Relationship)
    (h : RelationshipService.create_relationship gf data w = (.ok rel, w')) :
    (∀ r ∈ w.pg.rows, ¬(natKey r = (data.source_external_id,
      data.source_type.value, data.target_external_id, data.target_type.value,
      data.relation_type.value, data.edge_key)))
    ∧ rel.id = w.pg.nextId
    ∧ natKey rel = (data.source_external_id, data.source_type.value,
        data.target_external_id, data.target_type.value,
        data.relation_type.value, data.edge_key)
    ∧ w'.pg = ⟨w.pg.rows ++ [rel], w.pg.nextId + 1, w.pg.clock + 1⟩ := by
  unfold RelationshipService.create_relationship at h
  dsimp only at h
  cases hk : RelationshipRepository.get_by_key (data.source_external_id,
      data.source_type.value, data.target_external_id, data.target_type.value,
      data.relation_type.value, data.edge_key) false w.pg with
  | some v => rw [hk] at h; exact absurd h (by simp)
  | none =>
    rw [hk] at h
    unfold RelationshipRepository.create at h
    simp only [RelationshipRepository.CreateKwargs.key] at h
    cases hc : w.pg.rows.any (fun r => natKey r = (data.source_external_id,
        data.source_type.value, data.target_external_id, data.target_type.value,
        data.relation_type.value, data.edge_key)) with
    | true => rw [if_pos hc] at h; exact absurd h (by simp)
    | false =>
      rw [if_neg (by simp [hc])] at h
      cases gf with
      | true =>
        dsimp only [RelationshipGraphService.upsert_relationship] at h
        rw [if_pos rfl] at h
        exact absurd h (by simp)
      | false =>
        dsimp only [RelationshipGraphService.upsert_relationship] at h
        rw [if_neg (by simp)] at h
        rw [Prod.mk.injEq] at h
        obtain ⟨h1, hw⟩ := h
        injection h1 with h1
        refine ⟨?_, ?_, ?_, ?_⟩
        · intro r hr
          have := List.any_eq_false.mp hc r hr
          simpa using this
        · rw [← h1]
        · rw [← h1]; rfl
        · rw [← hw, ← h1]

theorem update_ok_state (gf : Bool) (id : Nat) (data : RelationshipUpdate)
    (w w' : World) (rel : Relationship)
    (h : RelationshipService.update_relationship gf id data w = (.ok rel, w')) :
    w'.pg = w.pg ∨
    (∃ r props, RelationshipRepository.get_by_id id false w.pg = some r ∧
      w'.pg = ⟨w.pg.rows.map (fun q => if q.id = id && q.is_deleted = false then
        { r with properties := props, updated_at := w.pg.clock } else q),
        w.pg.nextId, w.pg.clock + 1⟩) := by
  unfold RelationshipService.update_relationship at h
  cases hg : RelationshipRepository.get_by_id id false w.pg with
  | none => rw [hg] at h; exact absurd h (by simp)
  | some r =>
    rw [hg] at h
    cases hp : data.properties with
    | none =>
      rw [hp] at h
      left
      rw [Prod.mk.injEq] at h
      rw [← h.2]
    | some ps =>
      rw [hp] at h
      dsimp only at h
      rw [update_properties_ok id _ w.pg r hg] at h
      cases gf with
      | true =>
        dsimp only [RelationshipGraphService.upsert_relationship] at h
        rw [if_pos rfl] at h
        exact absurd h (by simp)
      | false =>
        dsimp only [RelationshipGraphService.upsert_relationship] at h
        rw [if_neg (by simp)] at h
        rw [Prod.mk.injEq] at h
        right
        refine ⟨r, RelationshipService.merge_properties r.properties data.properties,
          rfl, ?_⟩
        rw [← h.2]
        rw [hp]

theorem delete_ok_state (gf : Bool) (id : Nat) (w w' : World) (b : Bool)
    (h : RelationshipService.delete_relationship gf id w = (.ok b, w')) :
    w'.pg = ⟨w.pg.rows.filter (fun r => r.id ≠ id), w.pg.nextId, w.pg.clock⟩ := by
  unfold RelationshipService.delete_relationship
    RelationshipRepository.hard_delete at h
  cases hc : w.pg.rows.any (fun r => r.id = id) with
  | false => rw [if_neg (by simp [hc])] at h; exact absurd h (by simp)
  | true =>
    rw [if_pos hc] at h
    cases gf with
    | true =>
      dsimp only [RelationshipGraphService.delete_relationship] at h
      rw [if_pos rfl] at h
      exact absurd h (by simp)
    | false =>
      dsimp only [RelationshipGraphService.delete_relationship] at h
      rw [if_neg (by simp)] at h
      rw [Prod.mk.injEq] at h
      rw [← h.2]

theorem deleteForNode_ok_state (gf : Bool) (eid : String) (nt : NodeType)
    (w w' : World) (n : Nat)
    (h : RelationshipService.delete_relationships_for_node gf eid nt w
      = (.ok n, w')) :
    w'.pg = ⟨w.pg.rows.filter
        (fun r => !(RelationshipRepository.touchesNode eid nt.value r)),
      w.pg.nextId, w.pg.clock⟩ := by
  unfold RelationshipService.delete_relationships_for_node
    RelationshipRepository.hard_delete_by_node at h
  dsimp only at h
  cases gf with
  | true =>
    dsimp only [RelationshipGraphService.delete_node_relationships] at h
    rw [if_pos rfl] at h
    exact absurd h (by simp)
  | false =>
    dsimp only [RelationshipGraphService.delete_node_relationships] at h
    rw [if_neg (by simp)] at h
    rw [Prod.mk.injEq] at h
    rw [← h.2]

theorem idNe_symmetric : Symmetric (fun a b : Relationship => a.id ≠ b.id) :=
  fun _ _ hab he => hab he.symm

theorem natKeyNe_symmetric :
    Symmetric (fun a b : Relationship => natKey a ≠ natKey b) :=
  fun _ _ hab he => hab he.symm

theorem reachable_invariant (w : World) (h : Reachable w) :
    KeysUnique w.pg ∧ IdsFresh w.pg ∧ IdsUnique w.pg := by
  induction h with
  | init =>
    refine ⟨?_, ?_, ?_⟩ <;>
      simp [KeysUnique, IdsFresh, IdsUnique, World.empty, PGState.empty]
  | createOk gf data w w' rel hr heq ih =>
    obtain ⟨hnokey, hid, hkey, hpg⟩ := create_ok_state gf data w w' rel heq
    obtain ⟨ihK, ihF, ihU⟩ := ih
    refine ⟨?_, ?_, ?_⟩
    · unfold KeysUnique at *
      rw [hpg]
      dsimp only
      rw [List.pairwise_append]
      refine ⟨ihK, List.pairwise_singleton _ _, ?_⟩
      intro a ha b hb
      rw [List.mem_singleton] at hb
      subst hb
      rw [hkey]
      exact hnokey a ha
    · unfold IdsFresh at *
      rw [hpg]
      dsimp only
      intro r hr'
      rcases List.mem_append.mp hr' with hmem | hmem
      · exact Nat.lt_succ_of_lt (ihF r hmem)
      · rw [List.mem_singleton] at hmem
        subst hmem
        rw [hid]
        exact Nat.lt_succ_self _
    · unfold IdsUnique at *
      rw [hpg]
      dsimp only
      rw [List.pairwise_append]
      refine ⟨ihU, List.pairwise_singleton _ _, ?_⟩
      intro a ha b hb
      rw [List.mem_singleton] at hb
      subst hb
      rw [hid]
      exact Nat.ne_of_lt (ihF a ha)
  | updateOk gf id data w w' rel hr heq ih =>
    obtain ⟨ihK, ihF, ihU⟩ := ih
    rcases update_ok_state gf id data w w' rel heq with hsame | ⟨r, props, hg, hpg⟩
    · rw [hsame]; exact ⟨ihK, ihF, ihU⟩
    · have hrmem : r ∈ w.pg.rows := List.mem_of_find?_eq_some hg
      obtain ⟨hrid, _⟩ := get_by_id_found_active id w.pg r hg
      have hpt : ∀ q ∈ w.pg.rows,
          natKey (if q.id = id && q.is_deleted = false then
            { r with properties := props, updated_at := w.pg.clock } else q)
            = natKey q
          ∧ (if q.id = id && q.is_deleted = false then
            { r with properties := props, updated_at := w.pg.clock } else q).id
            = q.id := by
        intro q hq
        by_cases hcq : (q.id = id && q.is_deleted = false) = true
        · have hqid : q.id = id := by
            simp only [Bool.and_eq_true, decide_eq_true_eq] at hcq
            exact hcq.1
          have hqr : q = r := by
            by_contra hne
            exact List.Pairwise.forall idNe_symmetric ihU hq hrmem hne
              (hqid.trans hrid.symm)
          subst hqr
          rw [if_pos hcq]
          exact ⟨rfl, rfl⟩
        · rw [if_neg hcq]
          exact ⟨rfl, rfl⟩
      refine ⟨?_, ?_, ?_⟩
      · unfold KeysUnique at *
        rw [hpg]
        dsimp only
        rw [List.pairwise_map]
        refine List.Pairwise.imp_of_mem ?_ ihK
        intro a b ha hb hab
        rw [(hpt a ha).1, (hpt b hb).1]
        exact hab
      · unfold IdsFresh at *
        rw [hpg]
        dsimp only
        intro q' hq'
        obtain ⟨q, hq, rfl⟩ := List.mem_map.mp hq'
        rw [(hpt q hq).2]
        exact ihF q hq
      · unfold IdsUnique at *
        rw [hpg]
        dsimp only
        rw [List.pairwise_map]
        refine List.Pairwise.imp_of_mem ?_ ihU
        intro a b ha hb hab
        rw [(hpt a ha).2, (hpt b hb).2]
        exact hab
  | deleteOk gf id w w' b hr heq ih =>
    obtain ⟨ihK, ihF, ihU⟩ := ih
    have hpg := delete_ok_state gf id w w' b heq
    refine ⟨?_, ?_, ?_⟩
    · unfold KeysUnique at *
      rw [hpg]
      exact List.Pairwise.sublist (List.filter_sublist _) ihK
    · unfold IdsFresh at *
      rw [hpg]
      intro r hr'
      exact ihF r (List.mem_of_mem_filter hr')
    · unfold IdsUnique at *
      rw [hpg]
      exact List.Pairwise.sublist (List.filter_sublist _) ihU
  | deleteForNodeOk gf eid nt w w' n hr heq ih =>
    obtain ⟨ihK, ihF, ihU⟩ := ih
    have hpg := deleteForNode_ok_state gf eid nt w w' n heq
    refine ⟨?_, ?_, ?_⟩
    · unfold KeysUnique at *
      rw [hpg]
      exact List.Pairwise.sublist (List.filter_sublist _) ihK
    · unfold IdsFresh at *
      rw [hpg]
      intro r hr'
      exact ihF r (List.mem_of_mem_filter hr')
    · unfold IdsUnique at *
      rw [hpg]
      exact List.Pairwise.sublist (List.filter_sublist _) ihU

theorem keysUnique_atMostOneActive (st : PGState) (h : KeysUnique st) :
    AtMostOneActivePerKey st := by
  intro r1 h1 r2 h2 _ _ hkeq
  by_contra hne
  exact List.Pairwise.forall natKeyNe_symmetric h h1 h2 hne hkeq

/-- C1: when an active relationship with the requested natural key
already exists, create_relationship fails with the distinct
ConflictError (not a generic store error) and leaves both stores
unchanged, and every state reachable through the service holds at most
one active relationship per natural key. -/
theorem create_conflict_on_duplicate_key (gf : Bool)
    (data : RelationshipCreate) (w : World)
    (hact : ∃ r ∈ w.pg.rows, r.is_deleted = false ∧ natKey r
      = (data.source_external_id, data.source_type.value,
        data.target_external_id, data.target_type.value,
        data.relation_type.value, data.edge_key)) :
    RelationshipService.create_relationship gf data w
      = (.error (.ConflictError "Relationship" "unique_key"
          (data.source_external_id ++ "->" ++ data.target_external_id
            ++ ":" ++ data.relation_type.value)), w)
    ∧ (∀ w', Reachable w' → AtMostOneActivePerKey w'.pg) := by
  constructor
  · unfold RelationshipService.create_relationship
    dsimp only
    obtain ⟨r, hr, hdel, hkey⟩ := hact
    have hfound : (RelationshipRepository.get_by_key
        (data.source_external_id, data.source_type.value,
          data.target_external_id, data.target_type.value,
          data.relation_type.value, data.edge_key) false w.pg).isSome := by
      unfold RelationshipRepository.get_by_key
      rw [List.find?_isSome]
      exact ⟨r, hr, by simp [hkey, hdel]⟩
    obtain ⟨v, hv⟩ := Option.isSome_iff_exists.mp hfound
    rw [hv]
  · intro w' hw'
    exact keysUnique_atMostOneActive w'.pg (reachable_invariant w' hw').1

/-- Witness for C1: re-creating the natural key of the live relationship
stored in the one-row state yields exactly the conflict error and leaves
the state untouched. -/
theorem create_conflict_on_duplicate_key_witness :
    (RelationshipService.create_relationship false c3_data2 c3_w1
      = (.error (.ConflictError "Relationship" "unique_key"
          ("org:1" ++ "->" ++ "domain:1" ++ ":" ++ "OWNS_DOMAIN")), c3_w1))
    ∧ (∀ w', Reachable w' → AtMostOneActivePerKey w'.pg) :=
  create_conflict_on_duplicate_key false c3_data2 c3_w1
    ⟨sampleRel, by decide, by decide, by decide⟩

/-- Counterexample to C3: the service hard-deletes, so re-creating the
natural key of a deleted relationship does not restore the original
record.  Concretely: the first create returns the row with id 0 and
properties a=1; after delete_relationship, creating the same natural key
with properties b=2 returns a row with the fresh id 1 (not the original
id 0) whose properties are exactly b=2 and not the merge of old and new
properties. -/
theorem delete_then_recreate_counterexample :
    (RelationshipService.create_relationship false c3_data1 World.empty).1
      = .ok sampleRel
    ∧ RelationshipService.delete_relationship false sampleRel.id c3_w1
      = (.ok true, c3_w2)
    ∧ (RelationshipService.create_relationship false c3_data2 c3_w2).1
      = .ok ⟨1, "org:1", "Organization", "domain:1", "Domain", "OWNS_DOMAIN",
          "default", [("b", .num 2)], false, none, 1, 1, none⟩
    ∧ (1 : Nat) ≠ sampleRel.id
    ∧ ([("b", PropValue.num 2)] : Props)
      ≠ RelationshipService.merge_properties sampleRel.properties
          (some c3_data2.properties) := by
  refine ⟨rfl, rfl, rfl, by decide, by decide⟩

/-- C3 as amended: deletion is a hard delete, so once no row carries the
natural key any more, creating it again allocates a brand-new record
whose id is the fresh counter (different from every stored id) and whose
properties are exactly the newly supplied properties, with no merge of
the old record. -/
theorem recreate_allocates_fresh_row (data : RelationshipCreate) (w : World)
    (hnone : ∀ r ∈ w.pg.rows, ¬(natKey r = (data.source_external_id,
      data.source_type.value, data.target_external_id, data.target_type.value,
      data.relation_type.value, data.edge_key)))
    (hfresh : IdsFresh w.pg) :
    (RelationshipService.create_relationship false data w).1
      = .ok ⟨w.pg.nextId, data.source_external_id, data.source_type.value,
          data.target_external_id, data.target_type.value,
          data.relation_type.value, data.edge_key, data.properties,
          false, none, w.pg.clock, w.pg.clock, data.created_by⟩
    ∧ (∀ r ∈ w.pg.rows, w.pg.nextId ≠ r.id) := by
  constructor
  · unfold RelationshipService.create_relationship
    dsimp only
    have hk : RelationshipRepository.get_by_key (data.source_external_id,
        data.source_type.value, data.target_external_id, data.target_type.value,
        data.relation_type.value, data.edge_key) false w.pg = none := by
      unfold RelationshipRepository.get_by_key
      rw [List.find?_eq_none]
      intro r hr
      simp [hnone r hr]
    rw [hk]
    unfold RelationshipRepository.create
    simp only [RelationshipRepository.CreateKwargs.key]
    have hc : w.pg.rows.any (fun r => natKey r = (data.source_external_id,
        data.source_type.value, data.target_external_id, data.target_type.value,
        data.relation_type.value, data.edge_key)) = false := by
      rw [List.any_eq_false]
      intro r hr
      simpa using hnone r hr
    rw [if_neg (by simp [hc])]
    dsimp only [RelationshipGraphService.upsert_relationship]
    rw [if_neg (by simp)]
  · intro r hr
    exact Nat.ne_of_gt (hfresh r hr)

/-- Witness for the amended C3: re-creating the natural key on the
post-delete state returns a brand-new row with the fresh id. -/
theorem recreate_allocates_fresh_row_witness :
    (RelationshipService.create_relationship false c3_data2 c3_w2).1
      = .ok ⟨c3_w2.pg.nextId, c3_data2.source_external_id,
          c3_data2.source_type.value, c3_data2.target_external_id,
          c3_data2.target_type.value, c3_data2.relation_type.value,
          c3_data2.edge_key, c3_data2.properties, false, none,
          c3_w2.pg.clock, c3_w2.pg.clock, c3_data2.created_by⟩
    ∧ (∀ r ∈ c3_w2.pg.rows, c3_w2.pg.nextId ≠ r.id) :=
  recreate_allocates_fresh_row c3_data2 c3_w2
    (by
      intro r hr
      rw [show c3_w2.pg.rows = ([] : List Relationship) from rfl] at hr
      cases hr)
    (by
      intro r hr
      rw [show c3_w2.pg.rows = ([] : List Relationship) from rfl] at hr
      cases hr)

theorem relKeyLE_total (a b : Relationship) :
    (relKeyLE a b || relKeyLE b a) = true := by
  unfold relKeyLE
  simp only [Bool.or_eq_true, Bool.and_eq_true, decide_eq_true_eq]
  omega

theorem relKeyLE_trans (a b c : Relationship) :
    relKeyLE a b = true → relKeyLE b c = true → relKeyLE a c = true := by
  unfold relKeyLE
  simp only [Bool.or_eq_true, Bool.and_eq_true, decide_eq_true_eq]
  omega

theorem relKeyLE_antisymm_ids (a b : Relationship) (h : a.id ≠ b.id) :
    ¬(relKeyLE a b = true ∧ relKeyLE b a = true) := by
  unfold relKeyLE
  simp only [Bool.or_eq_true, Bool.and_eq_true, decide_eq_true_eq]
  omega

theorem drop_take_flatten (l : List Relationship) (n : Nat) (k : Nat) :
    ((List.range k).map (fun j => (l.drop (j * n)).take n)).flatten
      = l.take (k * n) := by
  induction k with
  | zero => simp
  | succ k ih =>
    rw [List.range_succ, List.map_append, List.flatten_append]
    simp only [List.map_cons, List.map_nil, List.flatten_cons,
      List.flatten_nil, List.append_nil]
    rw [ih, Nat.succ_mul, List.take_add]

/-- C9: listing and pagination sort by created_at ascending then id
ascending before the offset and limit window is applied: every returned
window is sorted under that key; the page items are exactly the window
of the one sorted filtered sequence and the reported total counts it;
consecutive pages concatenate to a prefix of the sorted sequence, so
enumeration by pages neither skips nor repeats rows; the sorted sequence
is a permutation of the filtered rows; and the key order is total and,
on rows with distinct ids, antisymmetric, hence a stable total order. -/
theorem list_pagination_stable (skip limit page page_size : Nat) (inc : Bool)
    (f : Filters) (st : PGState) :
    (List.Pairwise (fun a b => relKeyLE a b = true)
      (RelationshipRepository.list_all skip limit inc f st))
    ∧ (∀ pg, RelationshipRepository.paginate page page_size inc f st = .ok pg →
        pg.items = ((sortedRows inc f st).drop ((page - 1) * page_size)).take
          page_size
        ∧ pg.total = (sortedRows inc f st).length)
    ∧ (∀ k n, ((List.range k).map (fun j =>
        ((sortedRows inc f st).drop (j * n)).take n)).flatten
        = (sortedRows inc f st).take (k * n))
    ∧ (sortedRows inc f st).Perm (applyFilters f
        (if inc then st.rows else st.rows.filter (fun r => r.is_deleted = false)))
    ∧ (∀ a b : Relationship, (relKeyLE a b || relKeyLE b a) = true)
    ∧ (∀ a b : Relationship, a.id ≠ b.id →
        ¬(relKeyLE a b = true ∧ relKeyLE b a = true)) := by
  have hsorted : List.Pairwise (fun a b => relKeyLE a b = true)
      (sortedRows inc f st) := by
    unfold sortedRows
    exact List.sorted_mergeSort relKeyLE_trans relKeyLE_total _
  refine ⟨?_, ?_, ?_, ?_, relKeyLE_total, relKeyLE_antisymm_ids⟩
  · unfold RelationshipRepository.list_all
    exact List.Pairwise.sublist
      ((List.take_sublist _ _).trans (List.drop_sublist _ _)) hsorted
  · intro pg h
    unfold RelationshipRepository.paginate at h
    split at h
    · exact absurd h (by simp)
    split at h
    · exact absurd h (by simp)
    dsimp only at h
    injection h with h
    subst h
    exact ⟨rfl, rfl⟩
  · intro k n
    exact drop_take_flatten (sortedRows inc f st) n k
  · unfold sortedRows
    exact List.mergeSort_perm _ _

/-- Witness for C9: the first page of the one-row state is exactly the
sorted window and its total counts the filtered rows. -/
theorem list_pagination_stable_witness :
    (⟨[sampleRel], 1, 1, 20, 1⟩ : Page).items
      = ((sortedRows false ⟨none, none, none, none, none, none⟩
          c3_w1.pg).drop ((1 - 1) * 20)).take 20
    ∧ (⟨[sampleRel], 1, 1, 20, 1⟩ : Page).total
      = (sortedRows false ⟨none, none, none, none, none, none⟩
          c3_w1.pg).length :=
  (list_pagination_stable 0 20 1 20 false
    ⟨none, none, none, none, none, none⟩ c3_w1.pg).2.1
    ⟨[sampleRel], 1, 1, 20, 1⟩ (by
      have hsr : sortedRows false ⟨none, none, none, none, none, none⟩ c3_w1.pg
          = [sampleRel] := by
        rw [show sortedRows false ⟨none, none, none, none, none, none⟩ c3_w1.pg
          = List.mergeSort [sampleRel] relKeyLE from rfl]
        exact List.mergeSort_singleton _
      unfold RelationshipRepository.paginate
      rw [if_neg (by decide), if_neg (by decide)]
      dsimp only
      rw [hsr]
      rfl)

end ExternalHound
